import Mathlib

/-!
Shallow embedding of the agent gateway protocol layer of the
lector-mediciones backend: the SSE connection registry and cool-down gate
(src/controllers/sseController.js), the diagnostic-session endpoints
(src/controllers/testRegistradorController.js, SSE variant), the agent
secret verification and rotation (src/controllers/agentesController.js,
src/controllers/agenteApiController.js, src/controllers/adminAgentesController.js)
and the fixed-window rate limiter (src/middleware/rateLimiter.js).

JS Maps are modelled as association lists where an update replaces the
first entry with the given key (a JS Map holds each key at most once, so
on states built through these operations the two views coincide), numbers
are Int milliseconds, and the fallible external collaborators (bcrypt,
the random secret generator, the Supabase datastore, the SSE response
object) are modelled by explicit parameters and record fields.
-/

namespace LectorMediciones

/-! Association-list model of a JS Map. -/

/-- Map lookup: first entry with the given key. -/
def buscarClave [BEq κ] : List (κ × α) → κ → Option α
  | [], _ => none
  | (k, v) :: resto, clave => if k == clave then some v else buscarClave resto clave

/-- Map set: replace the first entry with the key, append if absent. -/
def ponerClave [BEq κ] : List (κ × α) → κ → α → List (κ × α)
  | [], clave, v => [(clave, v)]
  | (k, w) :: resto, clave, v =>
    if k == clave then (clave, v) :: resto else (k, w) :: ponerClave resto clave v

/-- Map delete: remove the entries with the key. -/
def quitarClave [BEq κ] : List (κ × α) → κ → List (κ × α)
  | [], _ => []
  | (k, w) :: resto, clave =>
    if k == clave then quitarClave resto clave else (k, w) :: quitarClave resto clave

theorem buscarClave_ponerClave [BEq κ] [LawfulBEq κ] (m : List (κ × α)) (clave : κ) (v : α) :
    buscarClave (ponerClave m clave v) clave = some v := by
  induction m with
  | nil => simp [ponerClave, buscarClave]
  | cons par resto ih =>
    obtain ⟨k, w⟩ := par
    by_cases h : k == clave
    · simp [ponerClave, h, buscarClave]
    · simp [ponerClave, h, buscarClave, ih]

theorem buscarClave_quitarClave [BEq κ] [LawfulBEq κ] (m : List (κ × α)) (clave : κ) :
    buscarClave (quitarClave m clave) clave = none := by
  induction m with
  | nil => simp [quitarClave, buscarClave]
  | cons par resto ih =>
    obtain ⟨k, w⟩ := par
    by_cases h : k == clave
    · simp [quitarClave, h, ih]
    · simp [quitarClave, h, buscarClave, ih]

theorem buscarClave_filter [BEq κ] [LawfulBEq κ] (m : List (κ × α)) (clave : κ) (v : α)
    (p : κ × α → Bool) (hv : buscarClave m clave = some v) (hp : p (clave, v) = true) :
    buscarClave (m.filter p) clave = some v := by
  induction m with
  | nil => simp [buscarClave] at hv
  | cons par resto ih =>
    obtain ⟨k, w⟩ := par
    by_cases h : k == clave
    · have hk : k = clave := by simpa using h
      subst hk
      simp only [buscarClave, beq_self_eq_true, if_true, Option.some_inj] at hv
      subst hv
      simp [List.filter_cons, hp, buscarClave]
    · simp only [buscarClave, h, if_neg, Bool.false_eq_true, not_false_iff] at hv
      have ihr := ih hv
      by_cases hq : p (k, w) = true
      · simp [List.filter_cons, hq, buscarClave, h, ihr]
      · simp [List.filter_cons, hq, ihr]

/-! Connection Registry and Cool-down Gate, from src/controllers/sseController.js. -/

/-- An SSE connection entry, as stored in the agentesConectados Map.
The res object is abstracted to the two observations the controller makes of
it: whether its writable side has ended, and whether a write on it throws. -/
structure Conexion where
  writableEnded : Bool
  escrituraFalla : Bool
  nombre : String
  deriving DecidableEq, Repr

/-- The agentesConectados Map: agent id to connection entry. -/
abbrev Registro := List (Nat × Conexion)

/-- enviarEventoAgente: look the channel up; absent or ended means false with
the registry untouched; a write that throws deletes the entry and yields
false; otherwise the event is written and the result is true. -/
def enviarEventoAgente (reg : Registro) (agenteId : Nat) : Bool × Registro :=
  match buscarClave reg agenteId with
  | none => (false, reg)
  | some conexion =>
    if conexion.writableEnded then (false, reg)
    else if conexion.escrituraFalla then (false, quitarClave reg agenteId)
    else (true, reg)

/-- agenteConectado: the entry exists and its writable side has not ended. -/
def agenteConectado (reg : Registro) (agenteId : Nat) : Bool :=
  match buscarClave reg agenteId with
  | none => false
  | some conexion => !conexion.writableEnded

/-- COOLDOWN_MS = 60000. -/
def COOLDOWN_MS : Int := 60000

/-- The cooldownTests Map key, the string ip:puerto. -/
def claveCooldown (ip : String) (puerto : Nat) : String :=
  ip ++ ":" ++ toString puerto

/-- Result shape of verificarCooldown. -/
structure ResultadoCooldown where
  permitido : Bool
  esperarSegundos : Int
  deriving DecidableEq, Repr

/-- Math.ceil of the rational a / b, for b positive, on integers. -/
def techoDiv (a b : Int) : Int := -((-a) / b)

/-- verificarCooldown: allowed when no dispatch is recorded for ip:puerto or
at least COOLDOWN_MS have elapsed; otherwise denied with the remaining wait
in whole seconds, rounded up. -/
def verificarCooldown (cooldowns : List (String × Int)) (ahora : Int)
    (ip : String) (puerto : Nat) : ResultadoCooldown :=
  match buscarClave cooldowns (claveCooldown ip puerto) with
  | none => ⟨true, 0⟩
  | some ultimoTest =>
    let tiempoTranscurrido := ahora - ultimoTest
    if COOLDOWN_MS ≤ tiempoTranscurrido then ⟨true, 0⟩
    else ⟨false, techoDiv (COOLDOWN_MS - tiempoTranscurrido) 1000⟩

/-- registrarTestRealizado: record now for ip:puerto; when the map exceeds
100 entries, prune the entries older than twice the cool-down. -/
def registrarTestRealizado (cooldowns : List (String × Int)) (ahora : Int)
    (ip : String) (puerto : Nat) : List (String × Int) :=
  let m := ponerClave cooldowns (claveCooldown ip puerto) ahora
  if 100 < m.length then
    m.filter (fun par => decide (ahora - par.2 ≤ COOLDOWN_MS * 2))
  else m

/-! Rate Limiter, from src/middleware/rateLimiter.js. -/

/-- VENTANA_MS = 60000. -/
def VENTANA_MS : Int := 60000

/-- One entry of the almacen Map: request count and window start. -/
structure VentanaRL where
  count : Nat
  windowStart : Int
  deriving DecidableEq, Repr

/-- Outcome of the middleware on one request: either next() is called or a
429 response with retryAfter seconds is sent. -/
inductive SalidaRL where
  | siguiente : SalidaRL
  | limitado (retryAfter : Int) : SalidaRL
  deriving DecidableEq, Repr

/-- The almacen key, the string ip:ruta. -/
def claveRL (ip ruta : String) : String := ip ++ ":" ++ ruta

/-- One request through the middleware produced by crearRateLimiter: a fresh
or expired window resets to count 1; otherwise the count is incremented (and
persisted) and the request is denied once the count exceeds maxRequests,
reporting the remaining window rounded up to whole seconds. -/
def crearRateLimiter (maxRequests : Nat) (almacen : List (String × VentanaRL))
    (ahora : Int) (ip ruta : String) : SalidaRL × List (String × VentanaRL) :=
  let clave := claveRL ip ruta
  match buscarClave almacen clave with
  | none => (.siguiente, ponerClave almacen clave ⟨1, ahora⟩)
  | some registro =>
    if VENTANA_MS < ahora - registro.windowStart then
      (.siguiente, ponerClave almacen clave ⟨1, ahora⟩)
    else
      let registroInc : VentanaRL := ⟨registro.count + 1, registro.windowStart⟩
      let almacenInc := ponerClave almacen clave registroInc
      if maxRequests < registroInc.count then
        (.limitado (techoDiv (VENTANA_MS - (ahora - registro.windowStart)) 1000), almacenInc)
      else
        (.siguiente, almacenInc)

/-! Secret Verifier and rotation, from src/controllers/agentesController.js
(verificarClaveAgente, rotarClave), src/controllers/agenteApiController.js
(autenticar, which runs the same matching loop and answers 401 Clave
inválida) and src/controllers/adminAgentesController.js (rotarClaveAgente,
which performs the same credential update). bcrypt.compare is abstracted to
a parameter cmp taking the presented secret and a stored hash, and
bcrypt.hash plus crypto.randomBytes are abstracted to a hash parameter and
an explicitly passed fresh plaintext secret. -/

/-- An agentes row, restricted to the columns the verifier and rotation
read and write. Timestamps are Int milliseconds. -/
structure Agente where
  id : Nat
  nombre : String
  clave_hash : String
  clave_anterior_hash : Option String
  clave_rotada_at : Option Int
  activo : Bool
  deriving DecidableEq, Repr

/-- 24 * 60 * 60 * 1000 milliseconds, the previous-secret grace window. -/
def veinticuatroHoras : Int := 24 * 60 * 60 * 1000

/-- The check the loop performs against the previous hash: both the hash and
the rotation timestamp exist, the rotation happened strictly less than 24
hours before now, and the compare succeeds. -/
def coincideClaveAnterior (cmp : String → String → Bool) (ahora : Int)
    (claveSecreta : String) (agente : Agente) : Bool :=
  match agente.clave_anterior_hash, agente.clave_rotada_at with
  | some hashAnterior, some rotadaAt =>
    if ahora - rotadaAt < veinticuatroHoras then cmp claveSecreta hashAnterior
    else false
  | _, _ => false

/-- A full match for one agent: current hash, or previous hash inside the
grace window. -/
def coincideAgente (cmp : String → String → Bool) (ahora : Int)
    (claveSecreta : String) (agente : Agente) : Bool :=
  cmp claveSecreta agente.clave_hash || coincideClaveAnterior cmp ahora claveSecreta agente

/-- Outcome of the verification: the matched identity with the
usoClavePrincipal flag and the optional advertencia, or the failure
message. -/
inductive ResultadoAuth where
  | exito (agenteId : Nat) (nombre : String) (usoClavePrincipal : Bool)
      (advertencia : Option String) : ResultadoAuth
  | fallo (error : String) : ResultadoAuth
  deriving DecidableEq, Repr

/-- The advertencia attached to a previous-hash match. -/
def advertenciaClaveAnterior : String := "Usando clave anterior, por favor actualice"

/-- The loop body shared by verificarClaveAgente and autenticar: walk the
active agents in order; a current-hash match returns that agent with
usoClavePrincipal true; otherwise a previous-hash match inside the grace
window returns it with usoClavePrincipal false and the advertencia; no
match over the whole list is the 401 failure Clave inválida. -/
def buscarAgentePorClave (cmp : String → String → Bool) (ahora : Int)
    (claveSecreta : String) : List Agente → ResultadoAuth
  | [] => .fallo "Clave inválida"
  | agente :: resto =>
    if cmp claveSecreta agente.clave_hash then
      .exito agente.id agente.nombre true none
    else if coincideClaveAnterior cmp ahora claveSecreta agente then
      .exito agente.id agente.nombre false (some advertenciaClaveAnterior)
    else
      buscarAgentePorClave cmp ahora claveSecreta resto

/-- verificarClaveAgente: the loop over the agentes rows with activo true,
in datastore order. -/
def verificarClaveAgente (cmp : String → String → Bool) (ahora : Int)
    (claveSecreta : String) (agentes : List Agente) : ResultadoAuth :=
  buscarAgentePorClave cmp ahora claveSecreta (agentes.filter (fun a => a.activo))

/-- The credential update performed by rotarClave and rotarClaveAgente:
move the current hash into clave_anterior_hash, store the hash of the
freshly generated secret as clave_hash, stamp clave_rotada_at, and return
the new secret in plaintext. -/
def rotarClave (hashNuevo : String → String) (ahora : Int) (nuevaClave : String)
    (agente : Agente) : Agente × String :=
  ({ agente with
      clave_anterior_hash := some agente.clave_hash,
      clave_hash := hashNuevo nuevaClave,
      clave_rotada_at := some ahora }, nuevaClave)

/-! Diagnostic Session Manager, from the SSE variant of
src/controllers/testRegistradorController.js (solicitarTest,
solicitarTestCoils, consultarTest, reportarResultadoTest). The
test_registrador table is a list of rows; each Supabase update is one
atomic write on it. -/

/-- The estado column of test_registrador. -/
inductive Estado where
  | pendiente : Estado
  | enviado : Estado
  | ejecutando : Estado
  | completado : Estado
  | error : Estado
  | timeout : Estado
  deriving DecidableEq, Repr

/-- A test_registrador row. -/
structure Test where
  id : Nat
  agente_id : Nat
  ip : String
  puerto : Nat
  unit_id : Nat
  indice_inicial : Nat
  cantidad_registros : Nat
  tipo_lectura : Option String
  estado : Estado
  solicitado_por : Nat
  valores : Option (List Int)
  error_mensaje : Option String
  tiempo_respuesta_ms : Option Nat
  created_at : Int
  completado_at : Option Int
  deriving DecidableEq, Repr

/-- TIMEOUT_SEGUNDOS = 30. -/
def TIMEOUT_SEGUNDOS : Nat := 30

/-- The fixed message stored when the dispatch fails. -/
def mensajeDesconectado : String := "El agente se desconectó antes de recibir el comando"

/-- The fixed message stored by the lazy timeout. -/
def mensajeNoRespondio : String := "El agente no respondió a tiempo"

/-- A Supabase update .eq id testId: apply the field change to every row
whose id matches. -/
def actualizarTests (tests : List Test) (testId : Nat) (f : Test → Test) : List Test :=
  tests.map fun t => if t.id = testId then f t else t

/-- A Supabase select .eq id .eq agente_id .single: the first row matching
both. -/
def buscarTest (tests : List Test) (testId agenteId : Nat) : Option Test :=
  tests.find? fun t => t.id == testId && t.agente_id == agenteId

/-- The unguarded lazy-timeout write of consultarTest: set estado timeout,
the fixed message and completado_at on the row with the given id, whatever
its state is by the time the write lands. -/
def escribirTimeout (tests : List Test) (testId : Nat) (ahora : Int) : List Test :=
  actualizarTests tests testId fun t =>
    { t with estado := .timeout, error_mensaje := some mensajeNoRespondio,
             completado_at := some ahora }

/-- The request body of reportarResultadoTest. -/
structure CuerpoResultado where
  exito : Bool
  tiempoRespuestaMs : Option Nat
  valores : Option (List Int)
  errorMensaje : Option String
  deriving DecidableEq, Repr

/-- The JS expression x or-else null: a missing or falsy (zero) value is
stored as null. -/
def oNulo (x : Option Nat) : Option Nat :=
  match x with
  | some n => if n = 0 then none else some n
  | none => none

/-- The updateData row change of reportarResultadoTest. -/
def aplicarResultado (cuerpo : CuerpoResultado) (ahora : Int) (t : Test) : Test :=
  { t with
      estado := if cuerpo.exito then .completado else .error,
      tiempo_respuesta_ms := oNulo cuerpo.tiempoRespuestaMs,
      valores := if cuerpo.exito then cuerpo.valores else none,
      error_mensaje := if cuerpo.exito then none else cuerpo.errorMensaje,
      completado_at := some ahora }

/-- The unguarded result write of reportarResultadoTest: apply updateData to
the row with the given id, whatever its state is by the time the write
lands. -/
def escribirResultado (tests : List Test) (testId : Nat) (cuerpo : CuerpoResultado)
    (ahora : Int) : List Test :=
  actualizarTests tests testId (aplicarResultado cuerpo ahora)

/-- Response of reportarResultadoTest. -/
structure RespuestaResultado where
  status : Nat
  error : Option String
  mensaje : Option String
  deriving DecidableEq, Repr

/-- reportarResultadoTest, run sequentially: the select and the update see
the same table state. The select filters by id and by the authenticated
agent id; a missing row is 404, a row whose estado is none of pendiente,
enviado, ejecutando is 400 ya fue procesado, otherwise updateData is
written. -/
def reportarResultadoTest (ahora : Int) (tests : List Test)
    (agenteId testId : Nat) (cuerpo : CuerpoResultado) :
    RespuestaResultado × List Test :=
  match buscarTest tests testId agenteId with
  | none => (⟨404, some "Test no encontrado", none⟩, tests)
  | some test =>
    if test.estado ≠ .pendiente ∧ test.estado ≠ .enviado ∧ test.estado ≠ .ejecutando then
      (⟨400, some "Este test ya fue procesado", none⟩, tests)
    else
      (⟨200, none, some "Resultado registrado correctamente"⟩,
       escribirResultado tests testId cuerpo ahora)

/-- Response of consultarTest: on success the row as serialized to the
caller (in the timeout branch, the spread of the row read before the write,
with estado and error_mensaje overridden). -/
structure RespuestaConsulta where
  status : Nat
  error : Option String
  test : Option Test
  deriving DecidableEq, Repr

/-- consultarTest, run sequentially: the select and the lazy-timeout update
see the same table state. The elapsed-time comparison elapsedMs / 1000 > 30
on JS floats is exactly elapsedMs > 30000 on integers. -/
def consultarTest (esSuperadminUsuario : Bool) (ahora : Int) (tests : List Test)
    (agenteId testId : Nat) : RespuestaConsulta × List Test :=
  if esSuperadminUsuario = false then
    (⟨403, some "Solo superadmin puede consultar tests", none⟩, tests)
  else
    match buscarTest tests testId agenteId with
    | none => (⟨404, some "Test no encontrado", none⟩, tests)
    | some test =>
      if test.estado = .pendiente ∨ test.estado = .enviado then
        if (TIMEOUT_SEGUNDOS : Int) * 1000 < ahora - test.created_at then
          let testRespuesta : Test :=
            { test with estado := .timeout, error_mensaje := some mensajeNoRespondio }
          (⟨200, none, some testRespuesta⟩, escribirTimeout tests testId ahora)
        else (⟨200, none, some test⟩, tests)
      else (⟨200, none, some test⟩, tests)

/-- Response of solicitarTest and solicitarTestCoils. -/
structure RespuestaSolicitar where
  status : Nat
  error : Option String
  testId : Option Nat
  esperarSegundos : Option Int
  timeoutSegundos : Option Nat
  deriving DecidableEq, Repr

/-- The request-independent context of one solicitarTest call: the caller
role lookup, the agentes row lookup, the registry as seen by the
agenteConectado guard, the registry as seen by the later
enviarEventoAgente dispatch (the agent can drop in between), the clock and
the id the insert returns. -/
structure EntornoTest where
  esSuperadminUsuario : Bool
  agenteExiste : Bool
  registroGuarda : Registro
  registroDespacho : Registro
  ahora : Int
  nuevoId : Nat

/-- Request body of solicitarTest. Absent fields are none; a present ip is
the given string (falsy when empty), numeric fields are parsed ints (falsy
when zero). -/
structure CuerpoSolicitud where
  ip : String
  puerto : Nat
  unitId : Option Nat
  indiceInicial : Option Nat
  cantidadRegistros : Nat
  deriving DecidableEq, Repr

/-- The parseInt unitId or-else 1 default. -/
def unitIdODefecto (x : Option Nat) : Nat :=
  match x with
  | some n => if n = 0 then 1 else n
  | none => 1

/-- The row solicitarTest inserts, estado pendiente, with created_at now. -/
def testNuevo (env : EntornoTest) (agenteId userId : Nat)
    (cuerpo : CuerpoSolicitud) (tipoLectura : Option String) : Test :=
  { id := env.nuevoId, agente_id := agenteId, ip := cuerpo.ip,
    puerto := cuerpo.puerto, unit_id := unitIdODefecto cuerpo.unitId,
    indice_inicial := cuerpo.indiceInicial.getD 0,
    cantidad_registros := cuerpo.cantidadRegistros,
    tipo_lectura := tipoLectura, estado := .pendiente,
    solicitado_por := userId, valores := none, error_mensaje := none,
    tiempo_respuesta_ms := none, created_at := env.ahora, completado_at := none }

/-- The dispatch-failure write of solicitarTest: estado error, the fixed
message and completado_at on the fresh row. -/
def escribirErrorDespacho (tests : List Test) (testId : Nat) (ahora : Int) : List Test :=
  actualizarTests tests testId fun t =>
    { t with estado := .error, error_mensaje := some mensajeDesconectado,
             completado_at := some ahora }

/-- The dispatch-success write of solicitarTest: estado enviado only. -/
def escribirEnviado (tests : List Test) (testId : Nat) : List Test :=
  actualizarTests tests testId fun t => { t with estado := .enviado }

/-- solicitarTest: superadmin guard, required-field guard, agent existence,
agenteConectado guard, cool-down check, cool-down record, insert of the
pendiente row, SSE dispatch, and either the error write with a 503 carrying
the testId or the enviado write with a 201. Returns the response, the
test_registrador table and the cool-down map. -/
def solicitarTest (env : EntornoTest) (tests : List Test)
    (cooldowns : List (String × Int)) (agenteId userId : Nat)
    (cuerpo : CuerpoSolicitud) :
    RespuestaSolicitar × List Test × List (String × Int) :=
  if env.esSuperadminUsuario = false then
    (⟨403, some "Solo superadmin puede solicitar tests", none, none, none⟩, tests, cooldowns)
  else if cuerpo.ip = "" ∨ cuerpo.puerto = 0 ∨ cuerpo.indiceInicial = none
      ∨ cuerpo.cantidadRegistros = 0 then
    (⟨400, some "Campos requeridos: ip, puerto, indiceInicial, cantidadRegistros",
      none, none, none⟩, tests, cooldowns)
  else if env.agenteExiste = false then
    (⟨404, some "Agente no encontrado", none, none, none⟩, tests, cooldowns)
  else if agenteConectado env.registroGuarda agenteId = false then
    (⟨503, some "El agente no está conectado", none, none, none⟩, tests, cooldowns)
  else if (verificarCooldown cooldowns env.ahora cuerpo.ip cuerpo.puerto).permitido = false then
    (⟨429, some ("Debes esperar "
        ++ toString (verificarCooldown cooldowns env.ahora cuerpo.ip cuerpo.puerto).esperarSegundos
        ++ " segundos antes de hacer otro test a " ++ cuerpo.ip ++ ":"
        ++ toString cuerpo.puerto), none,
      some (verificarCooldown cooldowns env.ahora cuerpo.ip cuerpo.puerto).esperarSegundos,
      none⟩, tests, cooldowns)
  else if (enviarEventoAgente env.registroDespacho agenteId).1 = false then
    (⟨503, some "No se pudo enviar el comando al agente", some env.nuevoId, none, none⟩,
     escribirErrorDespacho (tests ++ [testNuevo env agenteId userId cuerpo none])
       env.nuevoId env.ahora,
     registrarTestRealizado cooldowns env.ahora cuerpo.ip cuerpo.puerto)
  else
    (⟨201, none, some env.nuevoId, none, some TIMEOUT_SEGUNDOS⟩,
     escribirEnviado (tests ++ [testNuevo env agenteId userId cuerpo none]) env.nuevoId,
     registrarTestRealizado cooldowns env.ahora cuerpo.ip cuerpo.puerto)

/-- Request body of solicitarTestCoils. -/
structure CuerpoSolicitudCoils where
  ip : String
  puerto : Nat
  unitId : Option Nat
  direccionCoil : Option Nat
  cantidadBits : Nat
  deriving DecidableEq, Repr

/-- solicitarTestCoils: same flow as solicitarTest with the coil fields
stored in indice_inicial and cantidad_registros and tipo_lectura coils. -/
def solicitarTestCoils (env : EntornoTest) (tests : List Test)
    (cooldowns : List (String × Int)) (agenteId userId : Nat)
    (cuerpo : CuerpoSolicitudCoils) :
    RespuestaSolicitar × List Test × List (String × Int) :=
  if env.esSuperadminUsuario = false then
    (⟨403, some "Solo superadmin puede solicitar tests", none, none, none⟩, tests, cooldowns)
  else if cuerpo.ip = "" ∨ cuerpo.puerto = 0 ∨ cuerpo.direccionCoil = none
      ∨ cuerpo.cantidadBits = 0 then
    (⟨400, some "Campos requeridos: ip, puerto, direccionCoil, cantidadBits",
      none, none, none⟩, tests, cooldowns)
  else if env.agenteExiste = false then
    (⟨404, some "Agente no encontrado", none, none, none⟩, tests, cooldowns)
  else if agenteConectado env.registroGuarda agenteId = false then
    (⟨503, some "El agente no está conectado", none, none, none⟩, tests, cooldowns)
  else if (verificarCooldown cooldowns env.ahora cuerpo.ip cuerpo.puerto).permitido = false then
    (⟨429, some ("Debes esperar "
        ++ toString (verificarCooldown cooldowns env.ahora cuerpo.ip cuerpo.puerto).esperarSegundos
        ++ " segundos antes de hacer otro test a " ++ cuerpo.ip ++ ":"
        ++ toString cuerpo.puerto), none,
      some (verificarCooldown cooldowns env.ahora cuerpo.ip cuerpo.puerto).esperarSegundos,
      none⟩, tests, cooldowns)
  else if (enviarEventoAgente env.registroDespacho agenteId).1 = false then
    (⟨503, some "No se pudo enviar el comando al agente", some env.nuevoId, none, none⟩,
     escribirErrorDespacho
       (tests ++ [testNuevo env agenteId userId
         ⟨cuerpo.ip, cuerpo.puerto, cuerpo.unitId, cuerpo.direccionCoil,
          cuerpo.cantidadBits⟩ (some "coils")]) env.nuevoId env.ahora,
     registrarTestRealizado cooldowns env.ahora cuerpo.ip cuerpo.puerto)
  else
    (⟨201, none, some env.nuevoId, none, some TIMEOUT_SEGUNDOS⟩,
     escribirEnviado
       (tests ++ [testNuevo env agenteId userId
         ⟨cuerpo.ip, cuerpo.puerto, cuerpo.unitId, cuerpo.direccionCoil,
          cuerpo.cantidadBits⟩ (some "coils")]) env.nuevoId,
     registrarTestRealizado cooldowns env.ahora cuerpo.ip cuerpo.puerto)

/-! Helper lemmas shared by the claim theorems. -/

theorem enviarEventoAgente_desconectado (reg : Registro) (agenteId : Nat)
    (h : agenteConectado reg agenteId = false) :
    (enviarEventoAgente reg agenteId).1 = false := by
  unfold agenteConectado at h
  unfold enviarEventoAgente
  cases hb : buscarClave reg agenteId with
  | none => simp
  | some conexion =>
    rw [hb] at h
    simp at h
    simp [h]

theorem actualizarTests_congelado (tests : List Test) (testId : Nat) (f : Test → Test)
    (h : ∀ t ∈ tests, t.id ≠ testId) : actualizarTests tests testId f = tests := by
  unfold actualizarTests
  conv_rhs => rw [show tests = tests.map id from (List.map_id tests).symm]
  apply List.map_congr_left
  intro t ht
  simp [h t ht]

theorem actualizarTests_append_fresco (tests : List Test) (x : Test) (testId : Nat)
    (f : Test → Test) (h : ∀ t ∈ tests, t.id ≠ testId) (hx : x.id = testId) :
    actualizarTests (tests ++ [x]) testId f = tests ++ [f x] := by
  unfold actualizarTests
  rw [List.map_append]
  congr 1
  · exact actualizarTests_congelado tests testId f h
  · simp [hx]

theorem buscarTest_pertenece {tests : List Test} {testId agenteId : Nat} {t : Test}
    (h : buscarTest tests testId agenteId = some t) :
    t ∈ tests ∧ t.id = testId ∧ t.agente_id = agenteId := by
  refine ⟨List.mem_of_find?_eq_some h, ?_, ?_⟩
  · have := List.find?_some h
    simp only [Bool.and_eq_true, beq_iff_eq] at this
    exact this.1
  · have := List.find?_some h
    simp only [Bool.and_eq_true, beq_iff_eq] at this
    exact this.2

theorem buscarTest_unico {tests : List Test} {testId agenteId : Nat} {t : Test}
    (hU : (tests.map Test.id).Nodup) (ht : t ∈ tests) (hid : t.id = testId)
    (hag : t.agente_id = agenteId) : buscarTest tests testId agenteId = some t := by
  induction tests with
  | nil => cases ht
  | cons u resto ih =>
    have hU' : u.id ∉ resto.map Test.id ∧ (resto.map Test.id).Nodup := by
      rw [List.map_cons] at hU
      exact List.nodup_cons.mp hU
    by_cases hpu : (u.id == testId && u.agente_id == agenteId) = true
    · have hu : u = t := by
        simp only [Bool.and_eq_true, beq_iff_eq] at hpu
        rcases List.mem_cons.mp ht with h1 | h1
        · exact h1.symm
        · exfalso
          have hmem : t.id ∈ resto.map Test.id := List.mem_map.mpr ⟨t, h1, rfl⟩
          rw [hid, ← hpu.1] at hmem
          exact hU'.1 hmem
      unfold buscarTest
      have hpos : List.find? (fun t => t.id == testId && t.agente_id == agenteId)
          (u :: resto) = some u := List.find?_cons_of_pos resto hpu
      rw [hpos, hu]
    · have htr : t ∈ resto := by
        rcases List.mem_cons.mp ht with h1 | h1
        · exfalso; apply hpu; subst h1; simp [hid, hag]
        · exact h1
      have hrec := ih hU'.2 htr
      unfold buscarTest at hrec ⊢
      have hneg : List.find? (fun t => t.id == testId && t.agente_id == agenteId)
          (u :: resto) = List.find? (fun t => t.id == testId && t.agente_id == agenteId) resto :=
        List.find?_cons_of_neg resto hpu
      rw [hneg]
      exact hrec

theorem mapa_ids_actualizar (tests : List Test) (testId : Nat) (f : Test → Test)
    (hf : ∀ u, (f u).id = u.id) :
    (actualizarTests tests testId f).map Test.id = tests.map Test.id := by
  unfold actualizarTests
  rw [List.map_map]
  apply List.map_congr_left
  intro u _
  by_cases h : u.id = testId <;> simp [h, hf]

theorem buscarTest_actualizar {tests : List Test} {testId agenteId : Nat} {t : Test}
    (f : Test → Test) (hU : (tests.map Test.id).Nodup)
    (hB : buscarTest tests testId agenteId = some t)
    (hf : ∀ u, (f u).id = u.id) (hfa : ∀ u, (f u).agente_id = u.agente_id) :
    buscarTest (actualizarTests tests testId f) testId agenteId = some (f t) := by
  obtain ⟨ht, hid, hag⟩ := buscarTest_pertenece hB
  apply buscarTest_unico
  · rw [mapa_ids_actualizar tests testId f hf]; exact hU
  · exact List.mem_map.mpr ⟨t, ht, by simp [hid]⟩
  · rw [hf t, hid]
  · rw [hfa t, hag]

theorem unico_de_pertenece {tests : List Test} {t u : Test}
    (hU : (tests.map Test.id).Nodup) (ht : t ∈ tests) (hu : u ∈ tests)
    (hid : t.id = u.id) : t = u :=
  List.inj_on_of_nodup_map hU ht hu hid

theorem techoDiv_pos (x : Int) (hx : 0 < x) : 0 < techoDiv x 1000 := by
  unfold techoDiv
  have h1 : (-x) / 1000 < 0 := Int.ediv_neg' (by omega) (by norm_num)
  omega

theorem buscarClave_registrar (cooldowns : List (String × Int)) (ahora : Int)
    (ip : String) (puerto : Nat) :
    buscarClave (registrarTestRealizado cooldowns ahora ip puerto)
      (claveCooldown ip puerto) = some ahora := by
  unfold registrarTestRealizado
  by_cases h : 100 < (ponerClave cooldowns (claveCooldown ip puerto) ahora).length
  · simp only [h, if_true]
    apply buscarClave_filter
    · exact buscarClave_ponerClave cooldowns (claveCooldown ip puerto) ahora
    · simp [COOLDOWN_MS]
  · simp only [h, if_false]
    exact buscarClave_ponerClave cooldowns (claveCooldown ip puerto) ahora

/-- C5: for every (address, port) key, verificarCooldown allows with zero
wait when nothing is recorded or at least 60 s have elapsed; under 60 s it
denies with the remaining milliseconds divided by 1000 rounded up, which is
strictly positive; registrarTestRealizado stamps the key with the current
time, so a later check under 60 s after a record is denied with a positive
wait and a check at 60 s or more is allowed again. -/
theorem cooldown_espec :
    (∀ (cooldowns : List (String × Int)) (ahora : Int) (ip : String) (puerto : Nat),
      (buscarClave cooldowns (claveCooldown ip puerto) = none →
        verificarCooldown cooldowns ahora ip puerto = ⟨true, 0⟩)
      ∧ (∀ ultimoTest, buscarClave cooldowns (claveCooldown ip puerto) = some ultimoTest →
          (COOLDOWN_MS ≤ ahora - ultimoTest →
            verificarCooldown cooldowns ahora ip puerto = ⟨true, 0⟩)
          ∧ (ahora - ultimoTest < COOLDOWN_MS →
              verificarCooldown cooldowns ahora ip puerto =
                ⟨false, techoDiv (COOLDOWN_MS - (ahora - ultimoTest)) 1000⟩
              ∧ 0 < (verificarCooldown cooldowns ahora ip puerto).esperarSegundos))
      ∧ buscarClave (registrarTestRealizado cooldowns ahora ip puerto)
          (claveCooldown ip puerto) = some ahora)
    ∧ (∀ (cooldowns : List (String × Int)) (t1 t2 t3 : Int) (ip : String) (puerto : Nat),
        (t2 - t1 < COOLDOWN_MS →
          (verificarCooldown (registrarTestRealizado cooldowns t1 ip puerto)
              t2 ip puerto).permitido = false
          ∧ 0 < (verificarCooldown (registrarTestRealizado cooldowns t1 ip puerto)
              t2 ip puerto).esperarSegundos)
        ∧ (COOLDOWN_MS ≤ t3 - t1 →
            verificarCooldown (registrarTestRealizado cooldowns t1 ip puerto)
              t3 ip puerto = ⟨true, 0⟩)) := by
  have base : ∀ (cooldowns : List (String × Int)) (ahora : Int) (ip : String) (puerto : Nat),
      (buscarClave cooldowns (claveCooldown ip puerto) = none →
        verificarCooldown cooldowns ahora ip puerto = ⟨true, 0⟩)
      ∧ (∀ ultimoTest, buscarClave cooldowns (claveCooldown ip puerto) = some ultimoTest →
          (COOLDOWN_MS ≤ ahora - ultimoTest →
            verificarCooldown cooldowns ahora ip puerto = ⟨true, 0⟩)
          ∧ (ahora - ultimoTest < COOLDOWN_MS →
              verificarCooldown cooldowns ahora ip puerto =
                ⟨false, techoDiv (COOLDOWN_MS - (ahora - ultimoTest)) 1000⟩
              ∧ 0 < (verificarCooldown cooldowns ahora ip puerto).esperarSegundos)) := by
    intro cooldowns ahora ip puerto
    constructor
    · intro h
      unfold verificarCooldown
      rw [h]
    · intro ultimoTest h
      constructor
      · intro hviejo
        unfold verificarCooldown
        rw [h]
        simp only [if_pos hviejo]
      · intro hreciente
        have hres : verificarCooldown cooldowns ahora ip puerto =
            ⟨false, techoDiv (COOLDOWN_MS - (ahora - ultimoTest)) 1000⟩ := by
          unfold verificarCooldown
          rw [h]
          simp only [if_neg (by omega : ¬ COOLDOWN_MS ≤ ahora - ultimoTest)]
        refine ⟨hres, ?_⟩
        rw [hres]
        exact techoDiv_pos _ (by unfold COOLDOWN_MS at hreciente ⊢; omega)
  refine ⟨fun cooldowns ahora ip puerto =>
    ⟨(base cooldowns ahora ip puerto).1, (base cooldowns ahora ip puerto).2,
      buscarClave_registrar cooldowns ahora ip puerto⟩, ?_⟩
  intro cooldowns t1 t2 t3 ip puerto
  have hreg := buscarClave_registrar cooldowns t1 ip puerto
  constructor
  · intro hcerca
    have h := ((base (registrarTestRealizado cooldowns t1 ip puerto) t2 ip puerto).2
      t1 hreg).2 hcerca
    rw [h.1]
    exact ⟨rfl, by rw [h.1] at h; exact h.2⟩
  · intro hlejos
    exact ((base (registrarTestRealizado cooldowns t1 ip puerto) t3 ip puerto).2
      t1 hreg).1 hlejos

/-- Witness for cooldown_espec: recording at time 0 denies a check at 10 s
and allows a check at 60 s. -/
theorem cooldown_espec_testigo :
    ((verificarCooldown (registrarTestRealizado [] 0 "10.0.0.5" 502) 10000
        "10.0.0.5" 502).permitido = false
      ∧ 0 < (verificarCooldown (registrarTestRealizado [] 0 "10.0.0.5" 502) 10000
        "10.0.0.5" 502).esperarSegundos)
    ∧ verificarCooldown (registrarTestRealizado [] 0 "10.0.0.5" 502) 60000
        "10.0.0.5" 502 = ⟨true, 0⟩ :=
  ⟨(cooldown_espec.2 [] 0 10000 60000 "10.0.0.5" 502).1 (by decide),
   (cooldown_espec.2 [] 0 10000 60000 "10.0.0.5" 502).2 (by decide)⟩

/-- An entry whose response object has ended its writable side. -/
def conexionTerminada : Conexion := ⟨true, false, "agente-a"⟩

/-- A registry holding only that dead entry for agent 5. -/
def registroTerminado : Registro := [(5, conexionTerminada)]

/-- C6 counterexample: enviarEventoAgente on a present entry whose channel
is unusable (writable side ended) returns false yet leaves the entry
registered, so the registry does not afterwards contain no entry for that
agent id. -/
theorem enviar_contraejemplo :
    (enviarEventoAgente registroTerminado 5).1 = false
    ∧ (enviarEventoAgente registroTerminado 5).2 = registroTerminado
    ∧ buscarClave (enviarEventoAgente registroTerminado 5).2 5 = some conexionTerminada := by
  decide

/-- C6 amended: enviarEventoAgente returns false without retrying when the
entry is absent (the registry, unchanged, has no entry for the id), when
the entry is present but its writable side has ended (the entry is NOT
evicted), or when the write throws (the entry is evicted and the registry
afterwards has no entry for the id); with a present, usable channel the
write succeeds and it returns true. -/
theorem enviar_espec (reg : Registro) (agenteId : Nat) :
    (buscarClave reg agenteId = none →
      enviarEventoAgente reg agenteId = (false, reg)
      ∧ buscarClave (enviarEventoAgente reg agenteId).2 agenteId = none)
    ∧ (∀ c, buscarClave reg agenteId = some c → c.writableEnded = true →
        enviarEventoAgente reg agenteId = (false, reg))
    ∧ (∀ c, buscarClave reg agenteId = some c → c.writableEnded = false →
        c.escrituraFalla = true →
        enviarEventoAgente reg agenteId = (false, quitarClave reg agenteId)
        ∧ buscarClave (enviarEventoAgente reg agenteId).2 agenteId = none)
    ∧ (∀ c, buscarClave reg agenteId = some c → c.writableEnded = false →
        c.escrituraFalla = false →
        enviarEventoAgente reg agenteId = (true, reg)) := by
  refine ⟨?_, ?_, ?_, ?_⟩
  · intro h
    have he : enviarEventoAgente reg agenteId = (false, reg) := by
      unfold enviarEventoAgente; rw [h]
    exact ⟨he, by rw [he]; exact h⟩
  · intro c hc hfin
    unfold enviarEventoAgente
    rw [hc]
    simp [hfin]
  · intro c hc hfin hfalla
    have he : enviarEventoAgente reg agenteId = (false, quitarClave reg agenteId) := by
      unfold enviarEventoAgente
      rw [hc]
      simp [hfin, hfalla]
    exact ⟨he, by rw [he]; exact buscarClave_quitarClave reg agenteId⟩
  · intro c hc hfin hfalla
    unfold enviarEventoAgente
    rw [hc]
    simp [hfin, hfalla]

/-- Witness for enviar_espec: a write that throws evicts the entry. -/
theorem enviar_espec_testigo :
    enviarEventoAgente [(3, ⟨false, true, "b"⟩)] 3 = (false, quitarClave [(3, ⟨false, true, "b"⟩)] 3)
    ∧ buscarClave (enviarEventoAgente [(3, ⟨false, true, "b"⟩)] 3).2 3 = none :=
  (enviar_espec [(3, ⟨false, true, "b"⟩)] 3).2.2.1 ⟨false, true, "b"⟩ (by decide) rfl rfl

/-- C8 counterexample: with ceiling 1, a window opened at 0 holding one
request, and a request arriving exactly 60 s after the window start, the
limiter does not begin a new window with count 1 and allow it: the elapsed
time is not strictly greater than VENTANA_MS, so the request increments the
old window to 2 and is denied with retryAfter 0. -/
theorem rateLimiter_contraejemplo :
    crearRateLimiter 1 [("1.2.3.4:/api/agente/auth", ⟨1, 0⟩)] 60000
        "1.2.3.4" "/api/agente/auth"
      = (.limitado 0, [("1.2.3.4:/api/agente/auth", ⟨2, 0⟩)]) := by
  decide

/-- C8 amended: for every (ip, route) key, a request with no stored window
or arriving strictly more than 60 s after the stored window start begins a
new window with count 1 and is allowed; a request at most 60 s after the
window start increments the stored count, is allowed while the incremented
count stays within the ceiling, and once the incremented count exceeds the
ceiling is denied with a 429 carrying the remaining window rounded up to
whole seconds; a window reset replaces both count and start. -/
theorem rateLimiter_espec (maxRequests : Nat) (almacen : List (String × VentanaRL))
    (ahora : Int) (ip ruta : String) :
    (buscarClave almacen (claveRL ip ruta) = none →
      crearRateLimiter maxRequests almacen ahora ip ruta =
        (.siguiente, ponerClave almacen (claveRL ip ruta) ⟨1, ahora⟩))
    ∧ (∀ registro, buscarClave almacen (claveRL ip ruta) = some registro →
        (VENTANA_MS < ahora - registro.windowStart →
          crearRateLimiter maxRequests almacen ahora ip ruta =
            (.siguiente, ponerClave almacen (claveRL ip ruta) ⟨1, ahora⟩))
        ∧ (ahora - registro.windowStart ≤ VENTANA_MS →
            (registro.count + 1 ≤ maxRequests →
              crearRateLimiter maxRequests almacen ahora ip ruta =
                (.siguiente, ponerClave almacen (claveRL ip ruta)
                  ⟨registro.count + 1, registro.windowStart⟩))
            ∧ (maxRequests < registro.count + 1 →
                crearRateLimiter maxRequests almacen ahora ip ruta =
                  (.limitado (techoDiv (VENTANA_MS - (ahora - registro.windowStart)) 1000),
                   ponerClave almacen (claveRL ip ruta)
                     ⟨registro.count + 1, registro.windowStart⟩)))) := by
  refine ⟨?_, ?_⟩
  · intro h
    unfold crearRateLimiter
    simp only [h]
  · intro registro h
    refine ⟨?_, ?_⟩
    · intro hviejo
      unfold crearRateLimiter
      simp only [h]
      simp only [if_pos hviejo]
    · intro hdentro
      refine ⟨?_, ?_⟩
      · intro hbajo
        unfold crearRateLimiter
        simp only [h]
        simp only [if_neg (by omega : ¬ VENTANA_MS < ahora - registro.windowStart)]
        simp only [if_neg (by omega : ¬ maxRequests < registro.count + 1)]
      · intro halto
        unfold crearRateLimiter
        simp only [h]
        simp only [if_neg (by omega : ¬ VENTANA_MS < ahora - registro.windowStart)]
        simp only [if_pos halto]

/-- Witness for rateLimiter_espec: second request in a 2-ceiling window is
allowed, third is denied with the remaining 30 s reported. -/
theorem rateLimiter_espec_testigo :
    crearRateLimiter 2 [("a:/r", ⟨1, 0⟩)] 30000 "a" "/r"
      = (.siguiente, ponerClave [("a:/r", ⟨1, 0⟩)] "a:/r" ⟨2, 0⟩)
    ∧ crearRateLimiter 2 [("a:/r", ⟨2, 0⟩)] 30000 "a" "/r"
      = (.limitado (techoDiv (VENTANA_MS - 30000) 1000),
         ponerClave [("a:/r", ⟨2, 0⟩)] "a:/r" ⟨3, 0⟩) :=
  ⟨(((rateLimiter_espec 2 [("a:/r", ⟨1, 0⟩)] 30000 "a" "/r").2 ⟨1, 0⟩ (by decide)).2
      (by decide)).1 (by decide),
   (((rateLimiter_espec 2 [("a:/r", ⟨2, 0⟩)] 30000 "a" "/r").2 ⟨2, 0⟩ (by decide)).2
      (by decide)).2 (by decide)⟩

theorem buscarAgentePorClave_eq (cmp : String → String → Bool) (ahora : Int)
    (claveSecreta : String) (agentes : List Agente) :
    buscarAgentePorClave cmp ahora claveSecreta agentes =
      match agentes.find? (coincideAgente cmp ahora claveSecreta) with
      | none => .fallo "Clave inválida"
      | some a => .exito a.id a.nombre (cmp claveSecreta a.clave_hash)
          (if cmp claveSecreta a.clave_hash then none else some advertenciaClaveAnterior) := by
  induction agentes with
  | nil => rfl
  | cons a resto ih =>
    by_cases h1 : cmp claveSecreta a.clave_hash = true
    · have hc : coincideAgente cmp ahora claveSecreta a = true := by
        simp [coincideAgente, h1]
      have hf : List.find? (coincideAgente cmp ahora claveSecreta) (a :: resto) = some a :=
        List.find?_cons_of_pos resto hc
      rw [hf]
      unfold buscarAgentePorClave
      simp [h1]
    · have h1f : cmp claveSecreta a.clave_hash = false := by
        cases hv : cmp claveSecreta a.clave_hash
        · rfl
        · exact absurd hv h1
      by_cases h2 : coincideClaveAnterior cmp ahora claveSecreta a = true
      · have hc : coincideAgente cmp ahora claveSecreta a = true := by
          simp [coincideAgente, h2]
        have hf : List.find? (coincideAgente cmp ahora claveSecreta) (a :: resto) = some a :=
          List.find?_cons_of_pos resto hc
        rw [hf]
        unfold buscarAgentePorClave
        simp [h1f, h2]
      · have hc : ¬ coincideAgente cmp ahora claveSecreta a = true := by
          simp [coincideAgente, h1f]
          cases hv : coincideClaveAnterior cmp ahora claveSecreta a
          · rfl
          · exact absurd hv h2
        have hf : List.find? (coincideAgente cmp ahora claveSecreta) (a :: resto) =
            List.find? (coincideAgente cmp ahora claveSecreta) resto :=
          List.find?_cons_of_neg resto hc
        rw [hf]
        unfold buscarAgentePorClave
        simp only [h1f, if_false, Bool.false_eq_true]
        rw [if_neg h2]
        exact ih

/-- C1: secret verification succeeds if and only if some active agent
matches the presented secret on its current hash or, inside the 24-hour
grace window, on its previous hash; no match over all active agents is the
failure Clave inválida; and on success the first matching active agent in
iteration order wins, reported with usoClavePrincipal true and no
advertencia on a current-hash match, and usoClavePrincipal false with the
rotation advertencia on a previous-hash match. -/
theorem verificacion_espec (cmp : String → String → Bool) (ahora : Int)
    (claveSecreta : String) (agentes : List Agente) :
    ((∃ a ∈ agentes, a.activo = true ∧ coincideAgente cmp ahora claveSecreta a = true) ↔
      ∃ i n f adv, verificarClaveAgente cmp ahora claveSecreta agentes = .exito i n f adv)
    ∧ ((∀ a ∈ agentes, a.activo = true → coincideAgente cmp ahora claveSecreta a = false) ↔
        verificarClaveAgente cmp ahora claveSecreta agentes = .fallo "Clave inválida")
    ∧ (∀ i n f adv, verificarClaveAgente cmp ahora claveSecreta agentes = .exito i n f adv →
        ∃ a, (agentes.filter (fun a => a.activo)).find?
              (coincideAgente cmp ahora claveSecreta) = some a
          ∧ i = a.id ∧ n = a.nombre ∧ f = cmp claveSecreta a.clave_hash
          ∧ adv = (if cmp claveSecreta a.clave_hash then none
                   else some advertenciaClaveAnterior)) := by
  have hver : verificarClaveAgente cmp ahora claveSecreta agentes =
      buscarAgentePorClave cmp ahora claveSecreta (agentes.filter (fun a => a.activo)) := rfl
  have hmem : ∀ a, a ∈ agentes.filter (fun a => a.activo) ↔
      (a ∈ agentes ∧ a.activo = true) := by
    intro a
    simpa using List.mem_filter
  rw [hver, buscarAgentePorClave_eq]
  cases hf : (agentes.filter (fun a => a.activo)).find?
      (coincideAgente cmp ahora claveSecreta) with
  | none =>
    have hno := List.find?_eq_none.mp hf
    refine ⟨?_, ?_, ?_⟩
    · constructor
      · rintro ⟨a, haen, hact, hcoin⟩
        exact absurd hcoin (hno a ((hmem a).mpr ⟨haen, hact⟩))
      · rintro ⟨i, n, f, adv, h⟩
        cases h
    · constructor
      · intro _
        rfl
      · intro _ a haen hact
        cases hv : coincideAgente cmp ahora claveSecreta a
        · rfl
        · exact absurd hv (hno a ((hmem a).mpr ⟨haen, hact⟩))
    · intro i n f adv h
      cases h
  | some a =>
    have haf := List.mem_of_find?_eq_some hf
    have hcoin := List.find?_some hf
    refine ⟨?_, ?_, ?_⟩
    · constructor
      · intro _
        exact ⟨a.id, a.nombre, _, _, rfl⟩
      · intro _
        exact ⟨a, ((hmem a).mp haf).1, ((hmem a).mp haf).2, hcoin⟩
    · constructor
      · intro htodo
        exact absurd hcoin (by simp [htodo a ((hmem a).mp haf).1 ((hmem a).mp haf).2])
      · intro h
        cases h
    · intro i n f adv h
      refine ⟨a, rfl, ?_, ?_, ?_, ?_⟩ <;> cases h <;> rfl

/-- A concrete compare for the witnesses: a secret matches the hash H
prepended to it. -/
def cmpEjemplo (s h : String) : Bool := h == "H" ++ s

/-- A concrete active agent whose current secret is s1 and whose previous
secret s0 was rotated away at time 0. -/
def agenteEjemplo : Agente := ⟨1, "a", "H" ++ "s1", some ("H" ++ "s0"), some 0, true⟩

/-- Witness for verificacion_espec: a secret matching no active agent is
rejected with Clave inválida. -/
theorem verificacion_espec_testigo :
    verificarClaveAgente cmpEjemplo 1000 "zz" [agenteEjemplo] = .fallo "Clave inválida" :=
  (verificacion_espec cmpEjemplo 1000 "zz" [agenteEjemplo]).2.1.mp (by decide)

/-- C7: rotation moves the current hash into the previous-hash slot, stores
the hash of the freshly generated secret as current, stamps the rotation
time, and returns the new secret in plaintext; distinct generated secrets
give distinct returned plaintexts; and when hash comparison matches exactly
the generating secret, the secret superseded by two successive rotations
matches neither stored hash and no longer authenticates. -/
theorem rotacion_espec (hashNuevo : String → String) (cmp : String → String → Bool)
    (t1 t2 ahora : Int) (s0 s1 s2 : String) (agente : Agente)
    (hcmp : ∀ s otra, cmp s (hashNuevo otra) = true ↔ s = otra)
    (h0 : agente.clave_hash = hashNuevo s0)
    (h01 : s0 ≠ s1) (h02 : s0 ≠ s2) (h12 : s1 ≠ s2) :
    ((rotarClave hashNuevo t1 s1 agente).1.clave_anterior_hash = some agente.clave_hash
      ∧ (rotarClave hashNuevo t1 s1 agente).1.clave_hash = hashNuevo s1
      ∧ (rotarClave hashNuevo t1 s1 agente).1.clave_rotada_at = some t1
      ∧ (rotarClave hashNuevo t1 s1 agente).2 = s1)
    ∧ (rotarClave hashNuevo t1 s1 agente).2 ≠ (rotarClave hashNuevo t2 s2 agente).2
    ∧ (cmp s0 (rotarClave hashNuevo t2 s2 (rotarClave hashNuevo t1 s1 agente).1).1.clave_hash = false
        ∧ (rotarClave hashNuevo t2 s2 (rotarClave hashNuevo t1 s1 agente).1).1.clave_anterior_hash
            = some (hashNuevo s1)
        ∧ cmp s0 (hashNuevo s1) = false
        ∧ verificarClaveAgente cmp ahora s0
            [(rotarClave hashNuevo t2 s2 (rotarClave hashNuevo t1 s1 agente).1).1]
            = .fallo "Clave inválida") := by
  have hcmp01 : cmp s0 (hashNuevo s1) = false := by
    cases hv : cmp s0 (hashNuevo s1)
    · rfl
    · exact absurd ((hcmp s0 s1).mp hv) h01
  have hcmp02 : cmp s0 (hashNuevo s2) = false := by
    cases hv : cmp s0 (hashNuevo s2)
    · rfl
    · exact absurd ((hcmp s0 s2).mp hv) h02
  refine ⟨⟨rfl, rfl, rfl, rfl⟩, h12, ?_, rfl, hcmp01, ?_⟩
  · exact hcmp02
  · have hant : coincideClaveAnterior cmp ahora s0
        (rotarClave hashNuevo t2 s2 (rotarClave hashNuevo t1 s1 agente).1).1 = false := by
      show (if ahora - t2 < veinticuatroHoras then cmp s0 (hashNuevo s1) else false) = false
      split
      · exact hcmp01
      · rfl
    have hcur : cmp s0
        (rotarClave hashNuevo t2 s2 (rotarClave hashNuevo t1 s1 agente).1).1.clave_hash
        = false := hcmp02
    unfold verificarClaveAgente
    by_cases hact : agente.activo = true
    · rw [List.filter_cons]
      rw [if_pos (by simpa using hact)]
      unfold buscarAgentePorClave
      rw [if_neg (by simp [hcur]), if_neg (by simp [hant])]
      rfl
    · rw [List.filter_cons]
      rw [if_neg (by simpa using hact)]
      rfl

/-- Witness for rotacion_espec: with an identity hash model and equality
compare, the secret superseded by two rotations no longer authenticates. -/
theorem rotacion_espec_testigo :
    verificarClaveAgente (fun s h => s == h) 0 "s0"
      [(rotarClave (fun s => s) 2 "s2"
          (rotarClave (fun s => s) 1 "s1" ⟨1, "a", "s0", none, none, true⟩).1).1]
      = .fallo "Clave inválida" :=
  (rotacion_espec (fun s => s) (fun s h => s == h) 1 2 0 "s0" "s1" "s2"
      ⟨1, "a", "s0", none, none, true⟩
      (fun s otra => by simp) rfl (by decide) (by decide) (by decide)).2.2.2.2.2

theorem consultarTest_casos (b : Bool) (ahora : Int) (tests : List Test)
    (agenteId testId : Nat) :
    (consultarTest b ahora tests agenteId testId).2 = tests
    ∨ ∃ u, buscarTest tests testId agenteId = some u
        ∧ (u.estado = .pendiente ∨ u.estado = .enviado)
        ∧ (TIMEOUT_SEGUNDOS : Int) * 1000 < ahora - u.created_at
        ∧ (consultarTest b ahora tests agenteId testId).2 =
            escribirTimeout tests testId ahora := by
  unfold consultarTest
  by_cases hb : b = false
  · rw [if_pos hb]; left; rfl
  · rw [if_neg hb]
    cases hB : buscarTest tests testId agenteId with
    | none => left; rfl
    | some u =>
      simp only []
      by_cases h1 : u.estado = .pendiente ∨ u.estado = .enviado
      · rw [if_pos h1]
        by_cases h2 : (TIMEOUT_SEGUNDOS : Int) * 1000 < ahora - u.created_at
        · rw [if_pos h2]
          right
          exact ⟨u, rfl, h1, h2, rfl⟩
        · rw [if_neg h2]; left; rfl
      · rw [if_neg h1]; left; rfl

theorem reportar_casos (ahora : Int) (tests : List Test) (agenteId testId : Nat)
    (cuerpo : CuerpoResultado) :
    (reportarResultadoTest ahora tests agenteId testId cuerpo).2 = tests
    ∨ ∃ u, buscarTest tests testId agenteId = some u
        ∧ (u.estado = .pendiente ∨ u.estado = .enviado ∨ u.estado = .ejecutando)
        ∧ (reportarResultadoTest ahora tests agenteId testId cuerpo).2 =
            escribirResultado tests testId cuerpo ahora := by
  unfold reportarResultadoTest
  cases hB : buscarTest tests testId agenteId with
  | none => left; rfl
  | some u =>
    simp only []
    by_cases h1 : u.estado ≠ .pendiente ∧ u.estado ≠ .enviado ∧ u.estado ≠ .ejecutando
    · rw [if_pos h1]; left; rfl
    · rw [if_neg h1]
      right
      refine ⟨u, rfl, ?_, rfl⟩
      by_contra hno
      push_neg at hno
      exact h1 ⟨hno.1, hno.2.1, hno.2.2⟩

/-- C3: a consultarTest query by a superadmin on a session found pendiente
or enviado persists estado timeout with the fixed message and the
completion timestamp and reports the session as timeout when strictly more
than 30 s have elapsed since creation; at 30 s or less it answers the
stored row and leaves the table untouched; and a row already in estado
timeout survives, unchanged, any later query or resolve. -/
theorem consulta_timeout_espec :
    (∀ (ahora : Int) (tests : List Test) (agenteId testId : Nat) (test : Test),
      buscarTest tests testId agenteId = some test →
      (test.estado = .pendiente ∨ test.estado = .enviado) →
      (TIMEOUT_SEGUNDOS : Int) * 1000 < ahora - test.created_at →
      (tests.map Test.id).Nodup →
      consultarTest true ahora tests agenteId testId =
        (⟨200, none,
          some { test with
                   estado := Estado.timeout,
                   error_mensaje := some mensajeNoRespondio }⟩,
         escribirTimeout tests testId ahora)
      ∧ buscarTest (escribirTimeout tests testId ahora) testId agenteId =
          some { test with
                   estado := Estado.timeout,
                   error_mensaje := some mensajeNoRespondio,
                   completado_at := some ahora })
    ∧ (∀ (ahora : Int) (tests : List Test) (agenteId testId : Nat) (test : Test),
        buscarTest tests testId agenteId = some test →
        (test.estado = .pendiente ∨ test.estado = .enviado) →
        ahora - test.created_at ≤ (TIMEOUT_SEGUNDOS : Int) * 1000 →
        consultarTest true ahora tests agenteId testId = (⟨200, none, some test⟩, tests))
    ∧ (∀ (tests : List Test) (t : Test), t ∈ tests → t.estado = .timeout →
        (tests.map Test.id).Nodup →
        (∀ (b : Bool) (ahora : Int) (aid tid : Nat),
          t ∈ (consultarTest b ahora tests aid tid).2)
        ∧ (∀ (ahora : Int) (aid tid : Nat) (cuerpo : CuerpoResultado),
            t ∈ (reportarResultadoTest ahora tests aid tid cuerpo).2)) := by
  refine ⟨?_, ?_, ?_⟩
  · intro ahora tests agenteId testId test hB hE hT hU
    constructor
    · unfold consultarTest
      rw [if_neg (by simp), hB]
      simp only []
      rw [if_pos hE, if_pos hT]
    · exact buscarTest_actualizar _ hU hB (fun u => rfl) (fun u => rfl)
  · intro ahora tests agenteId testId test hB hE hT
    unfold consultarTest
    rw [if_neg (by simp), hB]
    simp only []
    rw [if_pos hE, if_neg (not_lt.mpr hT)]
  · intro tests t ht hTO hU
    constructor
    · intro b ahora aid tid
      rcases consultarTest_casos b ahora tests aid tid with h | ⟨u, hBu, hEst, _, h⟩
      · rw [h]; exact ht
      · rw [h]
        unfold escribirTimeout actualizarTests
        by_cases hid : t.id = tid
        · exfalso
          obtain ⟨hum, huid, _⟩ := buscarTest_pertenece hBu
          have htu : t = u := unico_de_pertenece hU ht hum (by rw [hid, huid])
          rw [← htu, hTO] at hEst
          rcases hEst with h | h <;> cases h
        · exact List.mem_map.mpr ⟨t, ht, by simp [hid]⟩
    · intro ahora aid tid cuerpo
      rcases reportar_casos ahora tests aid tid cuerpo with h | ⟨u, hBu, hEst, h⟩
      · rw [h]; exact ht
      · rw [h]
        unfold escribirResultado actualizarTests
        by_cases hid : t.id = tid
        · exfalso
          obtain ⟨hum, huid, _⟩ := buscarTest_pertenece hBu
          have htu : t = u := unico_de_pertenece hU ht hum (by rw [hid, huid])
          rw [← htu, hTO] at hEst
          rcases hEst with h | h | h <;> cases h
        · exact List.mem_map.mpr ⟨t, ht, by simp [hid]⟩

/-- A concrete enviado session used by witnesses, created at time 0. -/
def testEnviado : Test :=
  { id := 1, agente_id := 2, ip := "10.0.0.5", puerto := 502, unit_id := 1,
    indice_inicial := 100, cantidad_registros := 5, tipo_lectura := none,
    estado := .enviado, solicitado_por := 7, valores := none,
    error_mensaje := none, tiempo_respuesta_ms := none, created_at := 0,
    completado_at := none }

/-- Witness for consulta_timeout_espec: querying testEnviado 31 s after
creation persists and reports timeout. -/
theorem consulta_timeout_espec_testigo :
    consultarTest true 31001 [testEnviado] 2 1 =
      (⟨200, none,
        some { testEnviado with
                 estado := Estado.timeout,
                 error_mensaje := some mensajeNoRespondio }⟩,
       escribirTimeout [testEnviado] 1 31001)
    ∧ buscarTest (escribirTimeout [testEnviado] 1 31001) 1 2 =
        some { testEnviado with
                 estado := Estado.timeout,
                 error_mensaje := some mensajeNoRespondio,
                 completado_at := some 31001 } :=
  consulta_timeout_espec.1 31001 [testEnviado] 2 1 testEnviado (by decide)
    (by decide) (by decide) (by decide)

/-- C4: reportarResultadoTest updates the session, stamping completado_at
and storing either the values under completado or the message under error,
exactly when a row with that id and the authenticated agent id exists in
estado pendiente, enviado or ejecutando; a missing row (in particular, any
other agent resolving) is 404 with the table untouched; a terminal row is
400 ya fue procesado with the table untouched, so a second resolve leaves
the first resolution stored. -/
theorem resolver_espec (ahora : Int) (tests : List Test) (agenteId testId : Nat)
    (cuerpo : CuerpoResultado) :
    (buscarTest tests testId agenteId = none →
      reportarResultadoTest ahora tests agenteId testId cuerpo =
        (⟨404, some "Test no encontrado", none⟩, tests))
    ∧ (∀ test, buscarTest tests testId agenteId = some test →
        test.estado ≠ .pendiente → test.estado ≠ .enviado → test.estado ≠ .ejecutando →
        reportarResultadoTest ahora tests agenteId testId cuerpo =
          (⟨400, some "Este test ya fue procesado", none⟩, tests))
    ∧ (∀ test, buscarTest tests testId agenteId = some test →
        (test.estado = .pendiente ∨ test.estado = .enviado ∨ test.estado = .ejecutando) →
        reportarResultadoTest ahora tests agenteId testId cuerpo =
          (⟨200, none, some "Resultado registrado correctamente"⟩,
           escribirResultado tests testId cuerpo ahora)
        ∧ (aplicarResultado cuerpo ahora test).completado_at = some ahora
        ∧ (cuerpo.exito = true →
            (aplicarResultado cuerpo ahora test).estado = .completado
            ∧ (aplicarResultado cuerpo ahora test).valores = cuerpo.valores
            ∧ (aplicarResultado cuerpo ahora test).error_mensaje = none)
        ∧ (cuerpo.exito = false →
            (aplicarResultado cuerpo ahora test).estado = .error
            ∧ (aplicarResultado cuerpo ahora test).valores = none
            ∧ (aplicarResultado cuerpo ahora test).error_mensaje = cuerpo.errorMensaje)
        ∧ ((tests.map Test.id).Nodup →
            buscarTest (escribirResultado tests testId cuerpo ahora) testId agenteId =
              some (aplicarResultado cuerpo ahora test)
            ∧ ∀ (despues : Int) (cuerpoSegundo : CuerpoResultado),
                reportarResultadoTest despues (escribirResultado tests testId cuerpo ahora)
                    agenteId testId cuerpoSegundo =
                  (⟨400, some "Este test ya fue procesado", none⟩,
                   escribirResultado tests testId cuerpo ahora)))
    ∧ (∀ test (otroAgente : Nat), (tests.map Test.id).Nodup →
        buscarTest tests testId agenteId = some test → otroAgente ≠ agenteId →
        reportarResultadoTest ahora tests otroAgente testId cuerpo =
          (⟨404, some "Test no encontrado", none⟩, tests)) := by
  refine ⟨?_, ?_, ?_, ?_⟩
  · intro h
    unfold reportarResultadoTest
    rw [h]
  · intro test hB h1 h2 h3
    unfold reportarResultadoTest
    rw [hB]
    simp only []
    rw [if_pos ⟨h1, h2, h3⟩]
  · intro test hB hE
    have hres : reportarResultadoTest ahora tests agenteId testId cuerpo =
        (⟨200, none, some "Resultado registrado correctamente"⟩,
         escribirResultado tests testId cuerpo ahora) := by
      unfold reportarResultadoTest
      rw [hB]
      simp only []
      rw [if_neg (by rcases hE with h | h | h <;> simp [h])]
    refine ⟨hres, rfl, ?_, ?_, ?_⟩
    · intro hx; simp [aplicarResultado, hx]
    · intro hx; simp [aplicarResultado, hx]
    · intro hU
      have hBnuevo : buscarTest (escribirResultado tests testId cuerpo ahora)
          testId agenteId = some (aplicarResultado cuerpo ahora test) :=
        buscarTest_actualizar _ hU hB (fun u => rfl) (fun u => rfl)
      refine ⟨hBnuevo, ?_⟩
      intro despues cuerpoSegundo
      unfold reportarResultadoTest
      rw [hBnuevo]
      simp only []
      rw [if_pos ?_]
      cases hx : cuerpo.exito <;> simp [aplicarResultado, hx]
  · intro test otroAgente hU hB hne
    have hnada : buscarTest tests testId otroAgente = none := by
      cases hfind : buscarTest tests testId otroAgente with
      | none => rfl
      | some u =>
        exfalso
        obtain ⟨hum, huid, huag⟩ := buscarTest_pertenece hfind
        obtain ⟨htm, htid, htag⟩ := buscarTest_pertenece hB
        have : u = test := unico_de_pertenece hU hum htm (by rw [huid, htid])
        rw [this] at huag
        exact hne (by rw [← huag, htag])
    unfold reportarResultadoTest
    rw [hnada]

/-- Witness for resolver_espec: a successful resolve on testEnviado stores
completado with the values, and an immediate second resolve is rejected
with the table unchanged. -/
theorem resolver_espec_testigo :
    reportarResultadoTest 5000 [testEnviado] 2 1 ⟨true, some 120, some [10, 20], none⟩ =
      (⟨200, none, some "Resultado registrado correctamente"⟩,
       escribirResultado [testEnviado] 1 ⟨true, some 120, some [10, 20], none⟩ 5000)
    ∧ (∀ (despues : Int) (cuerpoSegundo : CuerpoResultado),
        reportarResultadoTest despues
            (escribirResultado [testEnviado] 1 ⟨true, some 120, some [10, 20], none⟩ 5000)
            2 1 cuerpoSegundo =
          (⟨400, some "Este test ya fue procesado", none⟩,
           escribirResultado [testEnviado] 1 ⟨true, some 120, some [10, 20], none⟩ 5000)) :=
  ⟨((resolver_espec 5000 [testEnviado] 2 1 ⟨true, some 120, some [10, 20], none⟩).2.2.1
      testEnviado (by decide) (by decide)).1,
   (((resolver_espec 5000 [testEnviado] 2 1 ⟨true, some 120, some [10, 20], none⟩).2.2.1
      testEnviado (by decide) (by decide)).2.2.2.2 (by decide)).2⟩

/-- C2: a diagnostic request that passes every guard (superadmin, fields,
agent exists, agent connected at the guard, cool-down clear) but whose
target agent has no live push channel by the time the dispatch runs gets a
503 whose body carries the fresh session id, with an error distinct from
the not-found one, and the persisted session ends in estado error with the
fixed message and a completion timestamp: it is not left pendiente and
never becomes enviado. Both solicitarTest and solicitarTestCoils behave
this way. -/
theorem despacho_fallido_espec :
    (∀ (env : EntornoTest) (tests : List Test) (cooldowns : List (String × Int))
        (agenteId userId : Nat) (cuerpo : CuerpoSolicitud),
      env.esSuperadminUsuario = true → cuerpo.ip ≠ "" → cuerpo.puerto ≠ 0 →
      cuerpo.indiceInicial ≠ none → cuerpo.cantidadRegistros ≠ 0 →
      env.agenteExiste = true →
      agenteConectado env.registroGuarda agenteId = true →
      (verificarCooldown cooldowns env.ahora cuerpo.ip cuerpo.puerto).permitido = true →
      (∀ t ∈ tests, t.id ≠ env.nuevoId) →
      agenteConectado env.registroDespacho agenteId = false →
      (solicitarTest env tests cooldowns agenteId userId cuerpo).1 =
        ⟨503, some "No se pudo enviar el comando al agente", some env.nuevoId, none, none⟩
      ∧ (solicitarTest env tests cooldowns agenteId userId cuerpo).1.error ≠
          some "Agente no encontrado"
      ∧ (solicitarTest env tests cooldowns agenteId userId cuerpo).2.1 =
          tests ++ [{ testNuevo env agenteId userId cuerpo none with
                        estado := Estado.error,
                        error_mensaje := some mensajeDesconectado,
                        completado_at := some env.ahora }]
      ∧ (∀ t ∈ (solicitarTest env tests cooldowns agenteId userId cuerpo).2.1,
          t.id = env.nuevoId →
            t.estado = Estado.error ∧ t.error_mensaje = some mensajeDesconectado
            ∧ t.completado_at = some env.ahora
            ∧ t.estado ≠ Estado.pendiente ∧ t.estado ≠ Estado.enviado))
    ∧ (∀ (env : EntornoTest) (tests : List Test) (cooldowns : List (String × Int))
        (agenteId userId : Nat) (cuerpo : CuerpoSolicitudCoils),
      env.esSuperadminUsuario = true → cuerpo.ip ≠ "" → cuerpo.puerto ≠ 0 →
      cuerpo.direccionCoil ≠ none → cuerpo.cantidadBits ≠ 0 →
      env.agenteExiste = true →
      agenteConectado env.registroGuarda agenteId = true →
      (verificarCooldown cooldowns env.ahora cuerpo.ip cuerpo.puerto).permitido = true →
      (∀ t ∈ tests, t.id ≠ env.nuevoId) →
      agenteConectado env.registroDespacho agenteId = false →
      (solicitarTestCoils env tests cooldowns agenteId userId cuerpo).1 =
        ⟨503, some "No se pudo enviar el comando al agente", some env.nuevoId, none, none⟩
      ∧ (solicitarTestCoils env tests cooldowns agenteId userId cuerpo).2.1 =
          tests ++ [{ testNuevo env agenteId userId
                        ⟨cuerpo.ip, cuerpo.puerto, cuerpo.unitId, cuerpo.direccionCoil,
                         cuerpo.cantidadBits⟩ (some "coils") with
                        estado := Estado.error,
                        error_mensaje := some mensajeDesconectado,
                        completado_at := some env.ahora }]
      ∧ (∀ t ∈ (solicitarTestCoils env tests cooldowns agenteId userId cuerpo).2.1,
          t.id = env.nuevoId →
            t.estado = Estado.error ∧ t.error_mensaje = some mensajeDesconectado
            ∧ t.completado_at = some env.ahora
            ∧ t.estado ≠ Estado.pendiente ∧ t.estado ≠ Estado.enviado)) := by
  constructor
  · intro env tests cooldowns agenteId userId cuerpo hSuper hIp hPuerto hIdx hCant
      hExiste hConn hCool hFresh hOff
    have hsend := enviarEventoAgente_desconectado env.registroDespacho agenteId hOff
    have hres : solicitarTest env tests cooldowns agenteId userId cuerpo =
        (⟨503, some "No se pudo enviar el comando al agente", some env.nuevoId, none, none⟩,
         escribirErrorDespacho (tests ++ [testNuevo env agenteId userId cuerpo none])
           env.nuevoId env.ahora,
         registrarTestRealizado cooldowns env.ahora cuerpo.ip cuerpo.puerto) := by
      unfold solicitarTest
      rw [if_neg (by simp [hSuper]), if_neg (by simp [hIp, hPuerto, hIdx, hCant]),
          if_neg (by simp [hExiste]), if_neg (by simp [hConn]),
          if_neg (by simp [hCool]), if_pos hsend]
    have hdb : escribirErrorDespacho (tests ++ [testNuevo env agenteId userId cuerpo none])
        env.nuevoId env.ahora =
        tests ++ [{ testNuevo env agenteId userId cuerpo none with
                      estado := Estado.error,
                      error_mensaje := some mensajeDesconectado,
                      completado_at := some env.ahora }] := by
      unfold escribirErrorDespacho
      exact actualizarTests_append_fresco tests _ env.nuevoId _ hFresh rfl
    refine ⟨by rw [hres], by rw [hres]; simp, by rw [hres]; exact hdb, ?_⟩
    intro t ht hid
    rw [hres] at ht
    simp only [] at ht
    rw [hdb] at ht
    rcases List.mem_append.mp ht with h | h
    · exact absurd hid (hFresh t h)
    · rw [List.mem_singleton.mp h]
      refine ⟨rfl, rfl, rfl, by simp, by simp⟩
  · intro env tests cooldowns agenteId userId cuerpo hSuper hIp hPuerto hDir hBits
      hExiste hConn hCool hFresh hOff
    have hsend := enviarEventoAgente_desconectado env.registroDespacho agenteId hOff
    have hres : solicitarTestCoils env tests cooldowns agenteId userId cuerpo =
        (⟨503, some "No se pudo enviar el comando al agente", some env.nuevoId, none, none⟩,
         escribirErrorDespacho
           (tests ++ [testNuevo env agenteId userId
             ⟨cuerpo.ip, cuerpo.puerto, cuerpo.unitId, cuerpo.direccionCoil,
              cuerpo.cantidadBits⟩ (some "coils")]) env.nuevoId env.ahora,
         registrarTestRealizado cooldowns env.ahora cuerpo.ip cuerpo.puerto) := by
      unfold solicitarTestCoils
      rw [if_neg (by simp [hSuper]), if_neg (by simp [hIp, hPuerto, hDir, hBits]),
          if_neg (by simp [hExiste]), if_neg (by simp [hConn]),
          if_neg (by simp [hCool]), if_pos hsend]
    have hdb : escribirErrorDespacho
        (tests ++ [testNuevo env agenteId userId
          ⟨cuerpo.ip, cuerpo.puerto, cuerpo.unitId, cuerpo.direccionCoil,
           cuerpo.cantidadBits⟩ (some "coils")]) env.nuevoId env.ahora =
        tests ++ [{ testNuevo env agenteId userId
                      ⟨cuerpo.ip, cuerpo.puerto, cuerpo.unitId, cuerpo.direccionCoil,
                       cuerpo.cantidadBits⟩ (some "coils") with
                      estado := Estado.error,
                      error_mensaje := some mensajeDesconectado,
                      completado_at := some env.ahora }] := by
      unfold escribirErrorDespacho
      exact actualizarTests_append_fresco tests _ env.nuevoId _ hFresh rfl
    refine ⟨by rw [hres], by rw [hres]; exact hdb, ?_⟩
    intro t ht hid
    rw [hres] at ht
    simp only [] at ht
    rw [hdb] at ht
    rcases List.mem_append.mp ht with h | h
    · exact absurd hid (hFresh t h)
    · rw [List.mem_singleton.mp h]
      refine ⟨rfl, rfl, rfl, by simp, by simp⟩

/-- A context for the witnesses: superadmin caller, existing agent 5
connected at the guard, registry empty by dispatch time, clock 1000, fresh
row id 9. -/
def envEjemplo : EntornoTest :=
  ⟨true, true, [(5, ⟨false, false, "agente-a"⟩)], [], 1000, 9⟩

/-- A valid request body for the witness. -/
def cuerpoEjemplo : CuerpoSolicitud := ⟨"10.0.0.5", 502, some 1, some 100, 5⟩

/-- Witness for despacho_fallido_espec: the dropped-before-dispatch request
answers 503 with the session id. -/
theorem despacho_fallido_espec_testigo :
    (solicitarTest envEjemplo [] [] 5 7 cuerpoEjemplo).1 =
      ⟨503, some "No se pudo enviar el comando al agente", some 9, none, none⟩ :=
  (despacho_fallido_espec.1 envEjemplo [] [] 5 7 cuerpoEjemplo (by decide) (by decide)
    (by decide) (by decide) (by decide) (by decide) (by decide) (by decide)
    (by simp) (by decide)).1

/-- The resolve payload used in the race scenario. -/
def cuerpoExito : CuerpoResultado := ⟨true, some 120, some [10, 20], none⟩

/-- The session after the resolve of the race scenario lands. -/
def testResuelto : Test := aplicarResultado cuerpoExito 31002 testEnviado

/-- C9 at the failing interleaving: a consultarTest read at 31001 ms sees
testEnviado still enviado and past the 30 s timeout, so it will write
timeout; the resolve lands first, storing completado with the values; the
query's deferred timeout write, which guards on nothing, then lands on the
same row and overwrites the terminal completado with timeout (keeping the
stale values), so the first terminal write does not win. -/
theorem carrera_timeout_espec :
    (testEnviado.estado = Estado.pendiente ∨ testEnviado.estado = Estado.enviado)
    ∧ (TIMEOUT_SEGUNDOS : Int) * 1000 < 31001 - testEnviado.created_at
    ∧ reportarResultadoTest 31002 [testEnviado] 2 1 cuerpoExito =
        (⟨200, none, some "Resultado registrado correctamente"⟩, [testResuelto])
    ∧ testResuelto.estado = Estado.completado
    ∧ testResuelto.valores = some [10, 20]
    ∧ buscarTest (escribirTimeout [testResuelto] 1 31003) 1 2 =
        some { testResuelto with
                 estado := Estado.timeout,
                 error_mensaje := some mensajeNoRespondio,
                 completado_at := some 31003 }
    ∧ ∀ t ∈ escribirTimeout [testResuelto] 1 31003,
        t.estado = Estado.timeout ∧ t.valores = some [10, 20] := by
  decide

/-- The invariant C10 claims of every stored session: completado_at is set
exactly on the terminal states, a completado row has no error message, an
error or timeout row has no stored values, and values and error message
are never both present. -/
def invarianteSesion (t : Test) : Prop :=
  (t.completado_at ≠ none ↔
    (t.estado = Estado.completado ∨ t.estado = Estado.error ∨ t.estado = Estado.timeout))
  ∧ (t.estado = Estado.completado → t.error_mensaje = none)
  ∧ ((t.estado = Estado.error ∨ t.estado = Estado.timeout) → t.valores = none)
  ∧ (t.valores = none ∨ t.error_mensaje = none)

/-- The inductive strengthening the handlers actually maintain: on top of
invarianteSesion, a row still in a non-terminal state carries neither
values nor an error message. -/
def invarianteFuerte (t : Test) : Prop :=
  invarianteSesion t
  ∧ ((t.estado = Estado.pendiente ∨ t.estado = Estado.enviado
       ∨ t.estado = Estado.ejecutando) →
      t.valores = none ∧ t.error_mensaje = none)

instance (t : Test) : Decidable (invarianteSesion t) := by
  unfold invarianteSesion
  infer_instance

instance (t : Test) : Decidable (invarianteFuerte t) := by
  unfold invarianteFuerte
  infer_instance

theorem invariante_aplicarResultado (cuerpo : CuerpoResultado) (ahora : Int) (t : Test) :
    invarianteFuerte (aplicarResultado cuerpo ahora t) := by
  cases hx : cuerpo.exito <;>
    simp [aplicarResultado, invarianteFuerte, invarianteSesion, hx]

theorem invariante_escribirResultado (tests : List Test) (testId : Nat)
    (cuerpo : CuerpoResultado) (ahora : Int)
    (hInv : ∀ t ∈ tests, invarianteFuerte t) :
    ∀ t ∈ escribirResultado tests testId cuerpo ahora, invarianteFuerte t := by
  intro x hx
  unfold escribirResultado actualizarTests at hx
  rcases List.mem_map.mp hx with ⟨t, ht, heq⟩
  by_cases hid : t.id = testId
  · rw [if_pos hid] at heq
    rw [← heq]
    exact invariante_aplicarResultado cuerpo ahora t
  · rw [if_neg hid] at heq
    rw [← heq]
    exact hInv t ht

theorem invariante_escribirTimeout (tests : List Test) (testId : Nat) (ahora : Int)
    (u : Test) (hU : (tests.map Test.id).Nodup) (hum : u ∈ tests) (huid : u.id = testId)
    (hEst : u.estado = Estado.pendiente ∨ u.estado = Estado.enviado)
    (hInv : ∀ t ∈ tests, invarianteFuerte t) :
    ∀ t ∈ escribirTimeout tests testId ahora, invarianteFuerte t := by
  intro x hx
  unfold escribirTimeout actualizarTests at hx
  rcases List.mem_map.mp hx with ⟨t, ht, heq⟩
  by_cases hid : t.id = testId
  · have htu : t = u := unico_de_pertenece hU ht hum (by rw [hid, huid])
    have hvac : t.valores = none ∧ t.error_mensaje = none := by
      refine (hInv t ht).2 ?_
      rw [htu]
      rcases hEst with h | h
      · exact Or.inl h
      · exact Or.inr (Or.inl h)
    rw [if_pos hid] at heq
    rw [← heq]
    simp [invarianteFuerte, invarianteSesion, hvac.1]
  · rw [if_neg hid] at heq
    rw [← heq]
    exact hInv t ht

theorem invariante_testNuevo (env : EntornoTest) (agenteId userId : Nat)
    (cuerpo : CuerpoSolicitud) (tipoLectura : Option String) :
    invarianteFuerte (testNuevo env agenteId userId cuerpo tipoLectura) := by
  simp [testNuevo, invarianteFuerte, invarianteSesion]

/-- C10: each diagnostic-session operation, applied to a table whose rows
all satisfy the strengthened invariant (and, for the two creating
endpoints, a fresh row id), yields a table whose rows all satisfy it
again; and the strengthened invariant entails the claimed one, so every
row reachable through these operations satisfies: completado_at set iff
terminal state, completado rows without error message, error and timeout
rows without values, never values and error message together. -/
theorem invariante_sesiones_espec :
    (∀ t, invarianteFuerte t → invarianteSesion t)
    ∧ (∀ (env : EntornoTest) (tests : List Test) (cooldowns : List (String × Int))
        (agenteId userId : Nat) (cuerpo : CuerpoSolicitud),
        (∀ t ∈ tests, invarianteFuerte t) → (∀ t ∈ tests, t.id ≠ env.nuevoId) →
        ∀ t ∈ (solicitarTest env tests cooldowns agenteId userId cuerpo).2.1,
          invarianteFuerte t)
    ∧ (∀ (env : EntornoTest) (tests : List Test) (cooldowns : List (String × Int))
        (agenteId userId : Nat) (cuerpo : CuerpoSolicitudCoils),
        (∀ t ∈ tests, invarianteFuerte t) → (∀ t ∈ tests, t.id ≠ env.nuevoId) →
        ∀ t ∈ (solicitarTestCoils env tests cooldowns agenteId userId cuerpo).2.1,
          invarianteFuerte t)
    ∧ (∀ (b : Bool) (ahora : Int) (tests : List Test) (agenteId testId : Nat),
        (∀ t ∈ tests, invarianteFuerte t) → (tests.map Test.id).Nodup →
        ∀ t ∈ (consultarTest b ahora tests agenteId testId).2, invarianteFuerte t)
    ∧ (∀ (ahora : Int) (tests : List Test) (agenteId testId : Nat)
        (cuerpo : CuerpoResultado),
        (∀ t ∈ tests, invarianteFuerte t) →
        ∀ t ∈ (reportarResultadoTest ahora tests agenteId testId cuerpo).2,
          invarianteFuerte t) := by
  refine ⟨fun t h => h.1, ?_, ?_, ?_, ?_⟩
  · intro env tests cooldowns agenteId userId cuerpo hInv hFresh
    have hins : ∀ (tipoLectura : Option String) (f : Test → Test),
        invarianteFuerte (f (testNuevo env agenteId userId cuerpo tipoLectura)) →
        ∀ t ∈ actualizarTests (tests ++ [testNuevo env agenteId userId cuerpo tipoLectura])
            env.nuevoId f, invarianteFuerte t := by
      intro tipoLectura f hf t ht
      rw [actualizarTests_append_fresco tests _ env.nuevoId f hFresh rfl] at ht
      rcases List.mem_append.mp ht with h | h
      · exact hInv t h
      · rw [List.mem_singleton.mp h]
        exact hf
    unfold solicitarTest
    split_ifs with h1 h2 h3 h4 h5 h6
    · exact hInv
    · exact hInv
    · exact hInv
    · exact hInv
    · exact hInv
    · exact hins none _ (by simp [testNuevo, invarianteFuerte, invarianteSesion])
    · exact hins none _ (by simp [testNuevo, invarianteFuerte, invarianteSesion])
  · intro env tests cooldowns agenteId userId cuerpo hInv hFresh
    have hins : ∀ (f : Test → Test),
        invarianteFuerte (f (testNuevo env agenteId userId
          ⟨cuerpo.ip, cuerpo.puerto, cuerpo.unitId, cuerpo.direccionCoil,
           cuerpo.cantidadBits⟩ (some "coils"))) →
        ∀ t ∈ actualizarTests (tests ++ [testNuevo env agenteId userId
            ⟨cuerpo.ip, cuerpo.puerto, cuerpo.unitId, cuerpo.direccionCoil,
             cuerpo.cantidadBits⟩ (some "coils")])
            env.nuevoId f, invarianteFuerte t := by
      intro f hf t ht
      rw [actualizarTests_append_fresco tests _ env.nuevoId f hFresh rfl] at ht
      rcases List.mem_append.mp ht with h | h
      · exact hInv t h
      · rw [List.mem_singleton.mp h]
        exact hf
    unfold solicitarTestCoils
    split_ifs with h1 h2 h3 h4 h5 h6
    · exact hInv
    · exact hInv
    · exact hInv
    · exact hInv
    · exact hInv
    · exact hins _ (by simp [testNuevo, invarianteFuerte, invarianteSesion])
    · exact hins _ (by simp [testNuevo, invarianteFuerte, invarianteSesion])
  · intro b ahora tests agenteId testId hInv hU
    rcases consultarTest_casos b ahora tests agenteId testId with h | ⟨u, hBu, hEst, _, h⟩
    · rw [h]; exact hInv
    · rw [h]
      obtain ⟨hum, huid, _⟩ := buscarTest_pertenece hBu
      exact invariante_escribirTimeout tests testId ahora u hU hum huid hEst hInv
  · intro ahora tests agenteId testId cuerpo hInv
    rcases reportar_casos ahora tests agenteId testId cuerpo with h | ⟨u, hBu, hEst, h⟩
    · rw [h]; exact hInv
    · rw [h]
      exact invariante_escribirResultado tests testId cuerpo ahora hInv

/-- Witness for invariante_sesiones_espec: the invariant holds after the
concrete resolve of testEnviado, and the strengthened invariant entails
the claimed one on the resolved row. -/
theorem invariante_sesiones_espec_testigo :
    invarianteSesion testResuelto
    ∧ ∀ t ∈ (reportarResultadoTest 31002 [testEnviado] 2 1 cuerpoExito).2,
        invarianteFuerte t :=
  ⟨invariante_sesiones_espec.1 testResuelto (by decide),
   invariante_sesiones_espec.2.2.2.2 31002 [testEnviado] 2 1 cuerpoExito (by decide)⟩

end LectorMediciones
